import Mathlib

/-!
# A state-passing model of `script.js`

The script builds a three.js scene, a camera, a renderer and a two-pass
effect composer, starts one HDR environment load whose callback starts one
glTF model load, and registers a resize handler, a mouse-move handler and a
per-frame callback.

Modelling conventions.

* JavaScript / GLSL numbers are elements of an arbitrary linearly ordered
  field `α` (exact arithmetic; rounding, infinities and NaN are not
  modelled, so a quotient is meaningful for a non-zero divisor only).  Decimal
  literals of the source are written as the same decimal literals.
* The constant `Math.PI` and the GLSL functions `cos`, `sin` belong to the
  runtime, not to the script; they are parameters of the definitions that use
  them.
* Library-owned objects (textures, the glTF scene graph, errors) are opaque
  records identified by a number.
* The browser event loop is a list of events; `step` runs the callback an
  event is delivered to, and is `none` when the browser cannot deliver that
  event in that state (a loader callback without an outstanding `load` call).
-/

namespace CyberpunkThree

/-! ## Library-owned values -/

/-- A three.js `Object3D` (here: the root of a loaded glTF scene graph). -/
structure Object3D where
  id : Nat
  deriving DecidableEq, Repr

/-- A texture handed to the `RGBELoader` callback. -/
structure Texture where
  id : Nat
  deriving DecidableEq, Repr

/-- The result of `pmremGenerator.fromEquirectangular(texture).texture`. -/
structure EnvMap where
  source : Texture
  deriving DecidableEq, Repr

/-- The argument of the `GLTFLoader` success callback; the script reads only
`gltf.scene`. -/
structure GLTF where
  scene : Object3D
  deriving DecidableEq, Repr

/-- The argument of the `GLTFLoader` error callback. -/
structure JSError where
  id : Nat
  deriving DecidableEq, Repr

/-- The fields of `window` the script reads. -/
structure Window (α : Type) where
  innerWidth : α
  innerHeight : α
  devicePixelRatio : α
  deriving DecidableEq, Repr

/-- The fields of a mouse event the script reads. -/
structure MouseEvent (α : Type) where
  clientX : α
  clientY : α
  deriving DecidableEq, Repr

/-! ## The RGB-shift shader (lines 8-35) -/

/-- GLSL `vec2`. -/
structure Vec2 (α : Type) where
  x : α
  y : α
  deriving DecidableEq, Repr

/-- GLSL `vec4`, with the colour swizzle names. -/
structure Vec4 (α : Type) where
  r : α
  g : α
  b : α
  a : α
  deriving DecidableEq, Repr

/-- The uniforms of a shader: `tDiffuse`, `amount`, `angle`. -/
structure Uniforms (α : Type) where
  tDiffuse : Option Texture
  amount : α
  angle : α
  deriving DecidableEq, Repr

/-- A shader object literal; the two GLSL programs are `fragmentShader`
below and the pass-through vertex shader. -/
structure Shader (α : Type) where
  uniforms : Uniforms α
  deriving DecidableEq, Repr

section Numbers

set_option linter.unusedSectionVars false

variable {α : Type} [LinearOrderedField α]

/-- GLSL `vec2 + vec2`. -/
def Vec2.add (p q : Vec2 α) : Vec2 α := ⟨p.x + q.x, p.y + q.y⟩

/-- GLSL `vec2 - vec2`. -/
def Vec2.sub (p q : Vec2 α) : Vec2 α := ⟨p.x - q.x, p.y - q.y⟩

/-- GLSL `float * vec2`. -/
def Vec2.scale (k : α) (p : Vec2 α) : Vec2 α := ⟨k * p.x, k * p.y⟩

/-- `RGBShiftShader` (lines 8-13): `tDiffuse: null, amount: 0.005, angle: 0.0`. -/
def RGBShiftShader : Shader α :=
  { uniforms := { tDiffuse := none, amount := 0.005, angle := 0.0 } }

/-- `RGBShiftShader.fragmentShader` (lines 27-33), the value written to
`gl_FragColor` at texture coordinate `vUv`.  `cos`, `sin` are the GLSL
built-ins and `tDiffuse` is the sampler `texture2D(tDiffuse, ·)`. -/
def fragmentShader (cos sin : α → α) (tDiffuse : Vec2 α → Vec4 α)
    (amount angle : α) (vUv : Vec2 α) : Vec4 α :=
  let offset : Vec2 α := Vec2.scale amount ⟨cos angle, sin angle⟩
  let cr := tDiffuse (Vec2.add vUv offset)
  let cga := tDiffuse vUv
  let cb := tDiffuse (Vec2.sub vUv offset)
  ⟨cr.r, cga.g, cb.b, cga.a⟩

/-! ## Scene, camera, renderer, composer -/

/-- The parts of `THREE.Scene` the script touches. -/
structure Scene where
  children : List Object3D
  environment : Option EnvMap
  deriving DecidableEq, Repr

/-- `new THREE.Scene()`. -/
def Scene.new : Scene := { children := [], environment := none }

/-- `scene.add(object)` of three.js: an object that is already a child of the
scene is first removed from it, then the object is pushed at the end. -/
def Scene.add (sc : Scene) (o : Object3D) : Scene :=
  { sc with children := sc.children.erase o ++ [o] }

/-- The parts of `THREE.PerspectiveCamera` the script touches.
`projectionAspect` is the aspect ratio the projection matrix was last
computed from (`updateProjectionMatrix`). -/
structure Camera (α : Type) where
  fov : α
  aspect : α
  near : α
  far : α
  positionZ : α
  projectionAspect : α
  deriving DecidableEq, Repr

/-- `new THREE.PerspectiveCamera(fov, aspect, near, far)`; the constructor
computes the projection matrix. -/
def Camera.new (fov aspect near far : α) : Camera α :=
  { fov := fov, aspect := aspect, near := near, far := far, positionZ := 0,
    projectionAspect := aspect }

/-- `camera.updateProjectionMatrix()`. -/
def Camera.updateProjectionMatrix (c : Camera α) : Camera α :=
  { c with projectionAspect := c.aspect }

/-- Tone-mapping constants of three.js used by the script. -/
inductive ToneMapping
  | NoToneMapping
  | ACESFilmicToneMapping
  deriving DecidableEq, Repr

/-- Texture-encoding constants of three.js used by the script. -/
inductive Encoding
  | LinearEncoding
  | sRGBEncoding
  deriving DecidableEq, Repr

/-- The parts of `THREE.WebGLRenderer` the script touches. -/
structure Renderer (α : Type) where
  antialias : Bool
  alpha : Bool
  pixelRatio : α
  width : α
  height : α
  toneMapping : ToneMapping
  toneMappingExposure : α
  outputEncoding : Encoding
  clearColor : String
  deriving DecidableEq, Repr

/-- `renderer.setPixelRatio(value)`. -/
def Renderer.setPixelRatio (r : Renderer α) (v : α) : Renderer α :=
  { r with pixelRatio := v }

/-- `renderer.setSize(width, height)`. -/
def Renderer.setSize (r : Renderer α) (w h : α) : Renderer α :=
  { r with width := w, height := h }

/-- The objects of the script a pass or the composer refers to. -/
inductive Ref
  | scene
  | camera
  | renderer
  | renderpass
  | rgbShiftPass
  deriving DecidableEq, Repr

/-- `new THREE.RenderPass(scene, camera)`. -/
structure RenderPass where
  scene : Ref
  camera : Ref
  deriving DecidableEq, Repr

/-- A `THREE.ShaderPass`: it owns a copy of the shader's uniforms. -/
structure ShaderPass (α : Type) where
  uniforms : Uniforms α
  deriving DecidableEq, Repr

/-- `new THREE.ShaderPass(shader)`: the uniforms are cloned from the shader. -/
def ShaderPass.new (sh : Shader α) : ShaderPass α := { uniforms := sh.uniforms }

/-- `pass.uniforms['amount'].value = v`. -/
def ShaderPass.setAmount (p : ShaderPass α) (v : α) : ShaderPass α :=
  { p with uniforms := { p.uniforms with amount := v } }

/-- The pass list of a `THREE.EffectComposer`, in render order. -/
structure Composer where
  renderer : Ref
  passes : List Ref
  deriving DecidableEq, Repr

/-- `new THREE.EffectComposer(renderer)`. -/
def Composer.new (r : Ref) : Composer := { renderer := r, passes := [] }

/-- `composer.addPass(pass)`. -/
def Composer.addPass (c : Composer) (p : Ref) : Composer :=
  { c with passes := c.passes ++ [p] }

/-! ## Asynchronous loads, tweens, console -/

/-- The life of one `loader.load(url, onLoad, onProgress, onError)` call. -/
inductive Load
  | notIssued
  | pending
  | settled
  deriving DecidableEq, Repr

/-- One `gsap.to(target.rotation, vars)` call: the object whose rotation is
animated, the targeted components (`none`: the key is not in `vars`), the
duration and the easing name. -/
structure Tween (α : Type) where
  target : Object3D
  x : Option α
  y : Option α
  z : Option α
  duration : α
  ease : String
  deriving DecidableEq, Repr

/-- One `console.error(message, error)` call. -/
structure LogEntry where
  message : String
  error : JSError
  deriving DecidableEq, Repr

/-- Everything the script and its callbacks can read or write. -/
structure State (α : Type) where
  scene : Scene
  camera : Camera α
  renderer : Renderer α
  composer : Composer
  renderpass : RenderPass
  rgbShiftPass : ShaderPass α
  pmremDisposed : Bool
  disposedTextures : List Texture
  model : Option Object3D
  envLoad : Load
  modelLoad : Load
  tweens : List (Tween α)
  console : List LogEntry
  frameRequests : Nat
  framesRendered : Nat
  deriving DecidableEq, Repr

/-! ## The callbacks -/

/-- The texture of the composer's read buffer, bound to `tDiffuse` when a
shader pass renders. -/
def readBuffer : Texture := ⟨0⟩

/-- `composer.render()`: the passes are rendered in order; rendering the
shader pass binds the read buffer to its `tDiffuse` uniform. -/
def composerRender (s : State α) : State α :=
  if Ref.rgbShiftPass ∈ s.composer.passes then
    { s with
      rgbShiftPass :=
        { s.rgbShiftPass with
          uniforms := { s.rgbShiftPass.uniforms with tDiffuse := some readBuffer } } }
  else s

/-- `animate` (lines 130-139): request the next frame, render the composer. -/
def animate (s : State α) : State α :=
  let s := { s with frameRequests := s.frameRequests + 1 }
  let s := composerRender s
  { s with framesRendered := s.framesRendered + 1 }

/-- The callback given to `RGBELoader.load` (lines 87-103). -/
def onEnvLoaded (texture : Texture) (s : State α) : State α :=
  let envMap : EnvMap := ⟨texture⟩
  { s with
    scene := { s.scene with environment := some envMap }
    disposedTextures := s.disposedTextures ++ [texture]
    pmremDisposed := true
    modelLoad := Load.pending }

/-- The success callback given to `GLTFLoader.load` (lines 96-99). -/
def onModelLoaded (gltf : GLTF) (s : State α) : State α :=
  { s with model := some gltf.scene, scene := s.scene.add gltf.scene }

/-- The error callback given to `GLTFLoader.load` (lines 99-101). -/
def onModelError (error : JSError) (s : State α) : State α :=
  { s with
    console := s.console ++ [⟨"An error occured while laoding the GLTF model:", error⟩] }

/-- `onWindowResize` (lines 107-113). -/
def onWindowResize (w : Window α) (s : State α) : State α :=
  let camera := { s.camera with aspect := w.innerWidth / w.innerHeight }
  let camera := camera.updateProjectionMatrix
  let renderer := s.renderer.setSize w.innerWidth w.innerHeight
  let renderer := renderer.setPixelRatio (min w.devicePixelRatio 2)
  { s with camera := camera, renderer := renderer }

/-- `rotationX` of the mouse-move handler (line 117); `PI` is `Math.PI`. -/
def rotationX (PI : α) (e : MouseEvent α) (w : Window α) : α :=
  (e.clientX / w.innerWidth - 0.5) * (PI * 0.3)

/-- `rotationY` of the mouse-move handler (line 118); `PI` is `Math.PI`. -/
def rotationY (PI : α) (e : MouseEvent α) (w : Window α) : α :=
  (e.clientY / w.innerHeight - 0.5) * (PI * 0.3)

/-- The mouse-move handler (lines 115-127); `PI` is `Math.PI`. -/
def onMouseMove (PI : α) (e : MouseEvent α) (w : Window α) (s : State α) : State α :=
  match s.model with
  | some model =>
    { s with
      tweens := s.tweens ++
        [{ target := model
           x := some (rotationY PI e w)
           y := some (rotationX PI e w)
           z := none
           duration := 0.5
           ease := "power2.out" }] }
  | none => s

/-! ## Top-level script and event loop -/

/-- The state when the top-level script has run to its last line, in a window
`w` (lines 1-141). -/
def setup (w : Window α) : State α :=
  let scene := Scene.new
  let camera := Camera.new 40 (w.innerWidth / w.innerHeight) 0.1 100
  let camera := { camera with positionZ := 3.5 }
  let renderer : Renderer α :=
    { antialias := true
      alpha := true
      pixelRatio := min w.devicePixelRatio 2
      width := w.innerWidth
      height := w.innerHeight
      toneMapping := ToneMapping.ACESFilmicToneMapping
      toneMappingExposure := 0.6
      outputEncoding := Encoding.sRGBEncoding
      clearColor := "black" }
  let composer := Composer.new Ref.renderer
  let renderpass : RenderPass := ⟨Ref.scene, Ref.camera⟩
  let composer := composer.addPass Ref.renderpass
  let rgbShiftPass := ShaderPass.new (RGBShiftShader : Shader α)
  let rgbShiftPass := rgbShiftPass.setAmount 0.0035
  let composer := composer.addPass Ref.rgbShiftPass
  animate
    { scene := scene
      camera := camera
      renderer := renderer
      composer := composer
      renderpass := renderpass
      rgbShiftPass := rgbShiftPass
      pmremDisposed := false
      disposedTextures := []
      model := none
      envLoad := Load.pending
      modelLoad := Load.notIssued
      tweens := []
      console := []
      frameRequests := 0
      framesRendered := 0 }

/-- What the browser can deliver to the script after the top-level code. -/
inductive Event (α : Type)
  | envLoaded (texture : Texture)
  | envFailed
  | modelLoaded (gltf : GLTF)
  | modelFailed (error : JSError)
  | resize (w : Window α)
  | mousemove (e : MouseEvent α) (w : Window α)
  | frame
  deriving DecidableEq, Repr

/-- One turn of the event loop.  A loader calls back once per `load` call, so
a load event needs an outstanding request and settles it; the environment load
has no error callback, so its failure runs no script code; a frame needs a
requested animation frame. -/
def step (PI : α) (s : State α) : Event α → Option (State α)
  | Event.envLoaded texture =>
    if s.envLoad = Load.pending then
      some (onEnvLoaded texture { s with envLoad := Load.settled })
    else none
  | Event.envFailed =>
    if s.envLoad = Load.pending then some { s with envLoad := Load.settled } else none
  | Event.modelLoaded gltf =>
    if s.modelLoad = Load.pending then
      some (onModelLoaded gltf { s with modelLoad := Load.settled })
    else none
  | Event.modelFailed error =>
    if s.modelLoad = Load.pending then
      some (onModelError error { s with modelLoad := Load.settled })
    else none
  | Event.resize w => some (onWindowResize w s)
  | Event.mousemove e w => some (onMouseMove PI e w s)
  | Event.frame =>
    if 0 < s.frameRequests then
      some (animate { s with frameRequests := s.frameRequests - 1 })
    else none

/-- Deliver a list of events in order. -/
def run (PI : α) (s : State α) : List (Event α) → Option (State α)
  | [] => some s
  | ev :: evs =>
    match step PI s ev with
    | some s' => run PI s' evs
    | none => none

/-! ## Invariants of the event loop -/

/-- The configuration no callback writes: the composer's pass list, what the
render pass draws, and the two numeric uniforms of the RGB-shift pass. -/
def Static (s : State α) : Prop :=
  s.composer.passes = [Ref.renderpass, Ref.rgbShiftPass] ∧
  s.renderpass = ⟨Ref.scene, Ref.camera⟩ ∧
  s.rgbShiftPass.uniforms.amount = 0.0035 ∧
  s.rgbShiftPass.uniforms.angle = 0.0

/-- The five phases of the two chained loads: environment outstanding;
environment failed; model outstanding; model failed; model loaded. -/
def Protocol (s : State α) : Prop :=
  (s.envLoad = Load.pending ∧ s.modelLoad = Load.notIssued ∧
      s.scene.environment = none ∧ s.model = none ∧ s.scene.children = []) ∨
  (s.envLoad = Load.settled ∧ s.modelLoad = Load.notIssued ∧
      s.scene.environment = none ∧ s.model = none ∧ s.scene.children = []) ∨
  (s.envLoad = Load.settled ∧ s.modelLoad = Load.pending ∧
      s.scene.environment ≠ none ∧ s.model = none ∧ s.scene.children = []) ∨
  (s.envLoad = Load.settled ∧ s.modelLoad = Load.settled ∧
      s.scene.environment ≠ none ∧ s.model = none ∧ s.scene.children = []) ∨
  (s.envLoad = Load.settled ∧ s.modelLoad = Load.settled ∧
      s.scene.environment ≠ none ∧ ∃ m, s.model = some m ∧ s.scene.children = [m])

/-- No load is outstanding or can still be issued, and there is no model. -/
def Stuck (s : State α) : Prop :=
  s.envLoad = Load.settled ∧ s.modelLoad = Load.settled ∧ s.model = none

/-! ## Concrete inputs -/

/-- A window of 800 by 600 pixels on a display of pixel ratio 3. -/
def exampleWindow : Window ℚ := ⟨800, 600, 3⟩

/-- A rational stand-in for `Math.PI`. -/
def examplePI : ℚ := 355 / 113

/-- The state once the environment texture `1` has loaded: the model load is
outstanding. -/
def examplePending : State ℚ :=
  onEnvLoaded ⟨1⟩ { setup exampleWindow with envLoad := Load.settled }

/-- The state once the model whose root is object `7` has loaded as well. -/
def exampleLoaded : State ℚ :=
  onModelLoaded ⟨⟨7⟩⟩ { examplePending with modelLoad := Load.settled }

/-- A cursor position inside `exampleWindow`. -/
def exampleMouse : MouseEvent ℚ := ⟨200, 450⟩

/-- A texture whose texel at `(u, v)` is `(u, v, u + v, 1)`. -/
def exampleTexture (p : Vec2 ℚ) : Vec4 ℚ := ⟨p.x, p.y, p.x + p.y, 1⟩

/-- A polynomial stand-in for `cos` with the right value at `0`. -/
def exampleCos (x : ℚ) : ℚ := 1 - x * x / 2

/-- A polynomial stand-in for `sin` with the right value at `0`. -/
def exampleSin (x : ℚ) : ℚ := x

/-! ## Lemmas on the event loop -/

theorem run_nil (PI : α) (s : State α) : run PI s [] = some s := rfl

theorem run_cons (PI : α) (s : State α) (ev : Event α) (evs : List (Event α)) :
    run PI s (ev :: evs) = (step PI s ev).bind (fun s' => run PI s' evs) := by
  cases h : step PI s ev <;> simp [run, h]

/-- A property that holds initially and is kept by every step holds after
every run. -/
theorem run_induction (PI : α) (P : State α → Prop)
    (hstep : ∀ s ev s', P s → step PI s ev = some s' → P s') :
    ∀ (evs : List (Event α)) (s s' : State α), P s → run PI s evs = some s' → P s' := by
  intro evs
  induction evs with
  | nil =>
    intro s s' hs h
    simp only [run, Option.some.injEq] at h
    exact h ▸ hs
  | cons ev evs ih =>
    intro s s' hs h
    rw [run_cons] at h
    cases hst : step PI s ev with
    | none => simp [hst] at h
    | some t =>
      simp only [hst, Option.some_bind] at h
      exact ih t s' (hstep s ev t hs hst) h

theorem static_setup (w : Window α) : Static (setup w) := by
  simp [Static, setup, animate, composerRender, Composer.addPass, Composer.new,
    ShaderPass.setAmount, ShaderPass.new, RGBShiftShader]

theorem protocol_setup (w : Window α) : Protocol (setup w) := by
  left
  simp [setup, animate, composerRender, Composer.addPass, Composer.new, Scene.new]

theorem static_step (PI : α) (s : State α) (ev : Event α) (s' : State α)
    (hs : Static s) (h : step PI s ev = some s') : Static s' := by
  obtain ⟨h1, h2, h3, h4⟩ := hs
  cases ev <;> simp only [step] at h
  case envLoaded t =>
    split at h <;> simp at h
    subst h
    simp [Static, onEnvLoaded, h1, h2, h3, h4]
  case envFailed =>
    split at h <;> simp at h
    subst h
    simp [Static, h1, h2, h3, h4]
  case modelLoaded g =>
    split at h <;> simp at h
    subst h
    simp [Static, onModelLoaded, h1, h2, h3, h4]
  case modelFailed e =>
    split at h <;> simp at h
    subst h
    simp [Static, onModelError, h1, h2, h3, h4]
  case resize w =>
    simp at h
    subst h
    simp [Static, onWindowResize, h1, h2, h3, h4]
  case mousemove e w =>
    simp at h
    subst h
    unfold onMouseMove
    split <;> simp [Static, h1, h2, h3, h4]
  case frame =>
    split at h <;> simp at h
    subst h
    simp [Static, animate, composerRender, h1, h2, h3, h4]

theorem animate_scene (s : State α) : (animate s).scene = s.scene := by
  unfold animate composerRender
  dsimp only
  split <;> rfl

theorem animate_model (s : State α) : (animate s).model = s.model := by
  unfold animate composerRender
  dsimp only
  split <;> rfl

theorem animate_envLoad (s : State α) : (animate s).envLoad = s.envLoad := by
  unfold animate composerRender
  dsimp only
  split <;> rfl

theorem animate_modelLoad (s : State α) : (animate s).modelLoad = s.modelLoad := by
  unfold animate composerRender
  dsimp only
  split <;> rfl

theorem protocol_step (PI : α) (s : State α) (ev : Event α) (s' : State α)
    (hs : Protocol s) (h : step PI s ev = some s') : Protocol s' := by
  cases ev <;> simp only [step] at h
  case envLoaded t =>
    split at h <;> simp at h
    rename_i hp
    subst h
    rcases hs with hs | hs | hs | hs | hs <;> simp [hp] at hs
    right; right; left
    simp [onEnvLoaded, hs]
  case envFailed =>
    split at h <;> simp at h
    rename_i hp
    subst h
    rcases hs with hs | hs | hs | hs | hs <;> simp [hp] at hs
    right; left
    simp [hs]
  case modelLoaded g =>
    split at h <;> simp at h
    rename_i hp
    subst h
    rcases hs with hs | hs | hs | hs | hs <;> simp [hp] at hs
    right; right; right; right
    simp [onModelLoaded, Scene.add, hs]
  case modelFailed e =>
    split at h <;> simp at h
    rename_i hp
    subst h
    rcases hs with hs | hs | hs | hs | hs <;> simp [hp] at hs
    right; right; right; left
    simp [onModelError, hs]
  case resize w =>
    simp at h
    subst h
    simpa [Protocol, onWindowResize] using hs
  case mousemove e w =>
    simp at h
    subst h
    unfold onMouseMove
    split
    · simpa [Protocol] using hs
    · exact hs
  case frame =>
    split at h <;> simp at h
    subst h
    simpa [Protocol, animate_scene, animate_model, animate_envLoad, animate_modelLoad]
      using hs

theorem stuck_step (PI : α) (s : State α) (ev : Event α) (s' : State α)
    (hs : Stuck s) (h : step PI s ev = some s') : Stuck s' := by
  obtain ⟨h1, h2, h3⟩ := hs
  cases ev <;> simp only [step] at h
  case envLoaded t => simp [h1] at h
  case envFailed => simp [h1] at h
  case modelLoaded g => simp [h2] at h
  case modelFailed e => simp [h2] at h
  case resize w =>
    simp at h
    subst h
    simp [Stuck, onWindowResize, h1, h2, h3]
  case mousemove e w =>
    simp at h
    subst h
    simp [Stuck, onMouseMove, h1, h2, h3]
  case frame =>
    split at h <;> simp at h
    subst h
    simp [Stuck, animate_model, animate_envLoad, animate_modelLoad, h1, h2, h3]

theorem static_run (PI : α) (w : Window α) (evs : List (Event α)) (s : State α)
    (h : run PI (setup w) evs = some s) : Static s :=
  run_induction PI Static (fun s ev s' hs hst => static_step PI s ev s' hs hst)
    evs (setup w) s (static_setup w) h

theorem protocol_run (PI : α) (w : Window α) (evs : List (Event α)) (s : State α)
    (h : run PI (setup w) evs = some s) : Protocol s :=
  run_induction PI Protocol (fun s ev s' hs hst => protocol_step PI s ev s' hs hst)
    evs (setup w) s (protocol_setup w) h

theorem stuck_run (PI : α) (evs : List (Event α)) (s s' : State α)
    (hs : Stuck s) (h : run PI s evs = some s') : Stuck s' :=
  run_induction PI Stuck (fun s ev s' hs hst => stuck_step PI s ev s' hs hst)
    evs s s' hs h

theorem mousemove_none (PI : α) (e : MouseEvent α) (w : Window α) (s : State α)
    (h : s.model = none) : onMouseMove PI e w s = s := by
  unfold onMouseMove
  rw [h]

/-! ## The claims -/

/-- C2: after the top-level script the composer holds exactly two passes, the
render pass over (scene, camera) first and the RGB-shift shader pass second,
and the same holds in every state reached by delivering events afterwards. -/
theorem composer_passes_fixed (PI : α) (w : Window α) (evs : List (Event α))
    (s : State α) (h : run PI (setup w) evs = some s) :
    ((setup w).composer.passes = [Ref.renderpass, Ref.rgbShiftPass] ∧
      (setup w).renderpass = ⟨Ref.scene, Ref.camera⟩) ∧
    (s.composer.passes = [Ref.renderpass, Ref.rgbShiftPass] ∧
      s.composer.passes.length = 2 ∧
      s.renderpass = ⟨Ref.scene, Ref.camera⟩) := by
  have h0 := static_setup w
  have h1 := static_run PI w evs s h
  refine ⟨⟨h0.1, h0.2.1⟩, h1.1, ?_, h1.2.1⟩
  rw [h1.1]
  rfl

/-- C3: a mouse-move event delivered while the model reference is absent is
handled, issues no tween and returns the state it was given. -/
theorem mousemove_absent_model_noop (PI : α) (e : MouseEvent α) (w : Window α)
    (s : State α) (h : s.model = none) :
    step PI s (Event.mousemove e w) = some s ∧
    onMouseMove PI e w s = s ∧
    (onMouseMove PI e w s).tweens = s.tweens := by
  have hk := mousemove_none PI e w s h
  refine ⟨?_, hk, ?_⟩
  · simp [step, hk]
  · rw [hk]

/-- C4: a mouse-move event delivered when the model reference holds `m`
appends exactly one tween, on `m`, with target
`x = (clientY/innerHeight - 0.5) * (0.3*PI)`,
`y = (clientX/innerWidth - 0.5) * (0.3*PI)`, no `z`, duration `0.5` and ease
`"power2.out"`, and changes nothing else. -/
theorem mousemove_issues_one_tween (PI : α) (e : MouseEvent α) (w : Window α)
    (s : State α) (m : Object3D) (h : s.model = some m) :
    step PI s (Event.mousemove e w) =
      some { s with
        tweens := s.tweens ++
          [{ target := m
             x := some ((e.clientY / w.innerHeight - 0.5) * (0.3 * PI))
             y := some ((e.clientX / w.innerWidth - 0.5) * (0.3 * PI))
             z := none
             duration := 0.5
             ease := "power2.out" }] } := by
  simp only [step, onMouseMove, h, rotationX, rotationY, mul_comm PI]

/-- C5: in every reachable state with the model load outstanding, the success
callback runs, sets the model reference to `gltf.scene`, and appends exactly
that object to the scene's children: the child count grows by one, the former
children and the environment are kept. -/
theorem model_loaded_adds_one_child (PI : α) (w : Window α)
    (evs : List (Event α)) (s : State α) (gltf : GLTF)
    (hreach : run PI (setup w) evs = some s) (hp : s.modelLoad = Load.pending) :
    ∃ s', step PI s (Event.modelLoaded gltf) = some s' ∧
      s'.model = some gltf.scene ∧
      s'.scene.children = s.scene.children ++ [gltf.scene] ∧
      s'.scene.children.length = s.scene.children.length + 1 ∧
      s'.scene.environment = s.scene.environment ∧
      s' = { s with
        model := some gltf.scene
        scene := { s.scene with children := s.scene.children ++ [gltf.scene] }
        modelLoad := Load.settled } := by
  have hc : s.scene.children = [] := by
    rcases protocol_run PI w evs s hreach with hs | hs | hs | hs | hs <;>
      simp [hp] at hs
    exact hs.2.2.2
  refine ⟨onModelLoaded gltf { s with modelLoad := Load.settled }, ?_, ?_, ?_, ?_, ?_, ?_⟩
  · simp [step, hp]
  · simp [onModelLoaded]
  · simp [onModelLoaded, Scene.add, hc]
  · simp [onModelLoaded, Scene.add, hc]
  · simp [onModelLoaded, Scene.add]
  · simp [onModelLoaded, Scene.add, hc]

/-- C1 (amended): the two loads are ordered.  The model load is not issued
by the top-level script; the environment callback assigns the environment map
and only then issues it; so in every reachable state in which the model load
has been issued the environment map is assigned, and in every reachable state
in which the model reference is set the model is in the scene and the
environment map is assigned. -/
theorem model_load_follows_environment (PI : α) (w : Window α)
    (evs : List (Event α)) (s : State α) (h : run PI (setup w) evs = some s) :
    (setup w).modelLoad = Load.notIssued ∧
    (∀ (t : Texture) (s₀ : State α),
      (onEnvLoaded t s₀).scene.environment = some ⟨t⟩ ∧
      (onEnvLoaded t s₀).modelLoad = Load.pending) ∧
    (s.modelLoad ≠ Load.notIssued → s.scene.environment ≠ none) ∧
    (∀ m, s.model = some m → m ∈ s.scene.children ∧ s.scene.environment ≠ none) := by
  refine ⟨?_, ?_, ?_, ?_⟩
  · simp [setup, animate_modelLoad]
  · intro t s₀
    simp [onEnvLoaded]
  · intro hn
    rcases protocol_run PI w evs s h with hs | hs | hs | hs | hs
    · exact absurd hs.2.1 hn
    · exact absurd hs.2.1 hn
    · exact hs.2.2.1
    · exact hs.2.2.1
    · exact hs.2.2.1
  · intro m hm
    rcases protocol_run PI w evs s h with hs | hs | hs | hs | hs
    · simp [hs.2.2.2.1] at hm
    · simp [hs.2.2.2.1] at hm
    · simp [hs.2.2.2.1] at hm
    · simp [hs.2.2.2.1] at hm
    · obtain ⟨_, _, henv, m', hm', hc⟩ := hs
      rw [hm'] at hm
      cases hm
      exact ⟨by simp [hc], henv⟩

/-- C1 (as stated, refuted): no execution of the callbacks reaches a state in
which the model reference is set and the model is in the scene while the
scene's environment map is unassigned. -/
theorem no_model_before_environment :
    ¬ ∃ (PI : ℝ) (w : Window ℝ) (evs : List (Event ℝ)) (s : State ℝ),
        run PI (setup w) evs = some s ∧
        (∃ m, s.model = some m ∧ m ∈ s.scene.children) ∧
        s.scene.environment = none := by
  rintro ⟨PI, w, evs, s, h, ⟨m, hm, _⟩, henv⟩
  rcases protocol_run PI w evs s h with hs | hs | hs | hs | hs
  · simp [hs.2.2.2.1] at hm
  · simp [hs.2.2.2.1] at hm
  · exact hs.2.2.1 henv
  · exact hs.2.2.1 henv
  · exact hs.2.2.1 henv

/-- C6: in every reachable state with the model load outstanding, the error
callback runs and only appends one console error carrying the error (and the
request is settled): the model reference was and stays absent, the scene is
unchanged; in every state reached afterwards the model reference is absent,
no model load is outstanding, and every mouse-move event returns the state
unchanged. -/
theorem model_failure_only_logs (PI : α) (w : Window α)
    (evs : List (Event α)) (s : State α) (error : JSError)
    (hreach : run PI (setup w) evs = some s) (hp : s.modelLoad = Load.pending) :
    ∃ s', step PI s (Event.modelFailed error) = some s' ∧
      s' = { s with
        console := s.console ++
          [⟨"An error occured while laoding the GLTF model:", error⟩]
        modelLoad := Load.settled } ∧
      s.model = none ∧ s'.model = none ∧ s'.scene = s.scene ∧
      s'.tweens = s.tweens ∧
      ∀ (evs' : List (Event α)) (s'' : State α), run PI s' evs' = some s'' →
        s''.model = none ∧ s''.modelLoad = Load.settled ∧
        ∀ (e : MouseEvent α) (w' : Window α),
          step PI s'' (Event.mousemove e w') = some s'' := by
  have hpr : s.envLoad = Load.settled ∧ s.model = none := by
    rcases protocol_run PI w evs s hreach with hs | hs | hs | hs | hs <;>
      simp [hp] at hs
    exact ⟨hs.1, hs.2.2.1⟩
  refine ⟨onModelError error { s with modelLoad := Load.settled }, ?_, ?_, hpr.2, ?_, ?_, ?_, ?_⟩
  · simp [step, hp]
  · simp [onModelError]
  · simp [onModelError, hpr.2]
  · simp [onModelError]
  · simp [onModelError]
  · intro evs' s'' hrun
    have hst : Stuck (onModelError error { s with modelLoad := Load.settled }) := by
      simp [Stuck, onModelError, hpr.1, hpr.2]
    have hst' := stuck_run PI evs' _ s'' hst hrun
    refine ⟨hst'.2.2, hst'.2.1, ?_⟩
    intro e w'
    simp [step, mousemove_none PI e w' s'' hst'.2.2]

/-- C7: the RGB-shift shader's uniforms are initialised to amount `0.005`,
angle `0.0`; the pass built from it starts with those values; the one override
sets the amount to `0.0035`; after the top-level script and in every state
reached by delivering events afterwards the pass's amount is `0.0035` and its
angle is `0.0`. -/
theorem rgb_shift_uniforms_static (PI : α) (w : Window α)
    (evs : List (Event α)) (s : State α) (h : run PI (setup w) evs = some s) :
    ((RGBShiftShader : Shader α).uniforms.amount = 0.005 ∧
      (RGBShiftShader : Shader α).uniforms.angle = 0.0) ∧
    ((ShaderPass.new (RGBShiftShader : Shader α)).uniforms.amount = 0.005 ∧
      (ShaderPass.new (RGBShiftShader : Shader α)).uniforms.angle = 0.0) ∧
    (((ShaderPass.new (RGBShiftShader : Shader α)).setAmount 0.0035).uniforms.amount
        = 0.0035 ∧
      ((ShaderPass.new (RGBShiftShader : Shader α)).setAmount 0.0035).uniforms.angle
        = 0.0) ∧
    ((setup w).rgbShiftPass.uniforms.amount = 0.0035 ∧
      (setup w).rgbShiftPass.uniforms.angle = 0.0) ∧
    (s.rgbShiftPass.uniforms.amount = 0.0035 ∧
      s.rgbShiftPass.uniforms.angle = 0.0) := by
  have h0 := static_setup w
  have h1 := static_run PI w evs s h
  exact ⟨⟨rfl, rfl⟩, ⟨rfl, rfl⟩, ⟨rfl, rfl⟩, h0.2.2, h1.2.2⟩

/-- C8: for a window with `innerHeight > 0`, `onWindowResize` sets the camera
aspect to `innerWidth / innerHeight` (and recomputes the projection from it),
the renderer size to `(innerWidth, innerHeight)` and the renderer pixel ratio
to `min devicePixelRatio 2`, which is at most `2`; the model reference, the
scene and the shader pass are unchanged.  The positivity of `innerHeight` is
where the quotient of the field is the quotient JavaScript computes; the
handler itself does not test it. -/
theorem resize_updates_camera_and_renderer (PI : α) (w : Window α) (s : State α)
    (_hpos : 0 < w.innerHeight) :
    step PI s (Event.resize w) = some (onWindowResize w s) ∧
    (onWindowResize w s).camera.aspect = w.innerWidth / w.innerHeight ∧
    (onWindowResize w s).camera.projectionAspect = w.innerWidth / w.innerHeight ∧
    (onWindowResize w s).renderer.width = w.innerWidth ∧
    (onWindowResize w s).renderer.height = w.innerHeight ∧
    (onWindowResize w s).renderer.pixelRatio = min w.devicePixelRatio 2 ∧
    (onWindowResize w s).renderer.pixelRatio ≤ 2 ∧
    (onWindowResize w s).model = s.model ∧
    (onWindowResize w s).scene = s.scene ∧
    (onWindowResize w s).rgbShiftPass = s.rgbShiftPass := by
  simp [step, onWindowResize, Camera.updateProjectionMatrix, Renderer.setSize,
    Renderer.setPixelRatio]

/-- The common shape of both rotation targets, for a cursor fraction `t` in
`[0, 1]` and a non-negative `PI`. -/
theorem rotation_target_bounds (PI t : α) (hPI : 0 ≤ PI) (h0 : 0 ≤ t) (h1 : t ≤ 1) :
    -(0.15 * PI) ≤ (t - 0.5) * (PI * 0.3) ∧ (t - 0.5) * (PI * 0.3) ≤ 0.15 * PI := by
  have ha : 0 ≤ PI * t := mul_nonneg hPI h0
  have hb : 0 ≤ PI * (1 - t) := mul_nonneg hPI (sub_nonneg.2 h1)
  norm_num
  constructor <;> nlinarith

/-- The common shape of both rotation targets is monotone in the cursor
coordinate, for a positive window extent and a non-negative `PI`. -/
theorem rotation_target_mono (PI c c' d : α) (hPI : 0 ≤ PI) (hd : 0 < d)
    (hc : c ≤ c') : (c / d - 0.5) * (PI * 0.3) ≤ (c' / d - 0.5) * (PI * 0.3) := by
  have h1 : c / d ≤ c' / d := div_le_div_of_nonneg_right hc hd.le
  have h2 : (0 : α) ≤ PI * 0.3 := mul_nonneg hPI (by norm_num)
  exact mul_le_mul_of_nonneg_right (by linarith) h2

/-- C9: for a cursor inside a window of positive size (and `Math.PI ≥ 0`),
both rotation targets of the handler lie in `[-0.15*PI, 0.15*PI]`; the cursor
at the window centre gives targets `(0, 0)`; and each target is monotonically
non-decreasing in its cursor coordinate. -/
theorem rotation_targets_bounded (PI : α) (e : MouseEvent α) (w : Window α)
    (hPI : 0 ≤ PI) (hw : 0 < w.innerWidth) (hh : 0 < w.innerHeight)
    (hx0 : 0 ≤ e.clientX) (hx1 : e.clientX ≤ w.innerWidth)
    (hy0 : 0 ≤ e.clientY) (hy1 : e.clientY ≤ w.innerHeight) :
    (-(0.15 * PI) ≤ rotationX PI e w ∧ rotationX PI e w ≤ 0.15 * PI) ∧
    (-(0.15 * PI) ≤ rotationY PI e w ∧ rotationY PI e w ≤ 0.15 * PI) ∧
    (rotationX PI ⟨w.innerWidth / 2, w.innerHeight / 2⟩ w = 0 ∧
      rotationY PI ⟨w.innerWidth / 2, w.innerHeight / 2⟩ w = 0) ∧
    (∀ e' : MouseEvent α, e.clientX ≤ e'.clientX →
      rotationX PI e w ≤ rotationX PI e' w) ∧
    (∀ e' : MouseEvent α, e.clientY ≤ e'.clientY →
      rotationY PI e w ≤ rotationY PI e' w) := by
  refine ⟨?_, ?_, ⟨?_, ?_⟩, ?_, ?_⟩
  · exact rotation_target_bounds PI _ hPI (div_nonneg hx0 hw.le)
      ((div_le_one hw).2 hx1)
  · exact rotation_target_bounds PI _ hPI (div_nonneg hy0 hh.le)
      ((div_le_one hh).2 hy1)
  · have : w.innerWidth / 2 / w.innerWidth = 0.5 := by
      field_simp
      norm_num
      ring
    simp [rotationX, this]
  · have : w.innerHeight / 2 / w.innerHeight = 0.5 := by
      field_simp
      norm_num
      ring
    simp [rotationY, this]
  · intro e' he
    exact rotation_target_mono PI _ _ _ hPI hw he
  · intro e' he
    exact rotation_target_mono PI _ _ _ hPI hh he

/-- C10: at angle `0` (with `cos 0 = 1`, `sin 0 = 0`) the fragment shader
shifts horizontally only: red is sampled at `(u + a, v)`, green and alpha at
`(u, v)`, blue at `(u - a, v)`; with `a = 0` the output is the input texel. -/
theorem fragment_shader_horizontal_shift (cos sin : α → α)
    (T : Vec2 α → Vec4 α) (u v a : α) (hcos : cos 0 = 1) (hsin : sin 0 = 0) :
    fragmentShader cos sin T a 0 ⟨u, v⟩ =
      ⟨(T ⟨u + a, v⟩).r, (T ⟨u, v⟩).g, (T ⟨u - a, v⟩).b, (T ⟨u, v⟩).a⟩ ∧
    fragmentShader cos sin T 0 0 ⟨u, v⟩ = T ⟨u, v⟩ := by
  constructor
  · simp [fragmentShader, Vec2.scale, Vec2.add, Vec2.sub, hcos, hsin]
  · simp [fragmentShader, Vec2.scale, Vec2.add, Vec2.sub]

end Numbers

/-! ## The claims at concrete inputs -/

theorem model_load_follows_environment_witness :
    run examplePI (setup exampleWindow)
        [Event.envLoaded ⟨1⟩, Event.modelLoaded ⟨⟨7⟩⟩] = some exampleLoaded ∧
    ((⟨7⟩ : Object3D) ∈ exampleLoaded.scene.children ∧
      exampleLoaded.scene.environment ≠ none) :=
  ⟨rfl, (model_load_follows_environment examplePI exampleWindow
      [Event.envLoaded ⟨1⟩, Event.modelLoaded ⟨⟨7⟩⟩] exampleLoaded rfl).2.2.2 ⟨7⟩ rfl⟩

theorem composer_passes_fixed_witness :
    run examplePI (setup exampleWindow)
        [Event.envLoaded ⟨1⟩, Event.modelLoaded ⟨⟨7⟩⟩] = some exampleLoaded ∧
    exampleLoaded.composer.passes = [Ref.renderpass, Ref.rgbShiftPass] :=
  ⟨rfl, (composer_passes_fixed examplePI exampleWindow
      [Event.envLoaded ⟨1⟩, Event.modelLoaded ⟨⟨7⟩⟩] exampleLoaded rfl).2.1⟩

theorem mousemove_absent_model_noop_witness :
    (setup exampleWindow).model = none ∧
    step examplePI (setup exampleWindow) (Event.mousemove exampleMouse exampleWindow)
      = some (setup exampleWindow) :=
  ⟨rfl, (mousemove_absent_model_noop examplePI exampleMouse exampleWindow
      (setup exampleWindow) rfl).1⟩

theorem mousemove_issues_one_tween_witness :
    exampleLoaded.model = some ⟨7⟩ ∧
    step examplePI exampleLoaded (Event.mousemove exampleMouse exampleWindow) =
      some { exampleLoaded with
        tweens := exampleLoaded.tweens ++
          [{ target := ⟨7⟩
             x := some ((exampleMouse.clientY / exampleWindow.innerHeight - 0.5)
                    * (0.3 * examplePI))
             y := some ((exampleMouse.clientX / exampleWindow.innerWidth - 0.5)
                    * (0.3 * examplePI))
             z := none
             duration := 0.5
             ease := "power2.out" }] } :=
  ⟨rfl, mousemove_issues_one_tween examplePI exampleMouse exampleWindow
      exampleLoaded ⟨7⟩ rfl⟩

theorem model_loaded_adds_one_child_witness :
    (run examplePI (setup exampleWindow) [Event.envLoaded ⟨1⟩] = some examplePending ∧
      examplePending.modelLoad = Load.pending) ∧
    ∃ s', step examplePI examplePending (Event.modelLoaded ⟨⟨7⟩⟩) = some s' ∧
      s'.model = some ⟨7⟩ ∧
      s'.scene.children = examplePending.scene.children ++ [⟨7⟩] :=
  ⟨⟨rfl, rfl⟩,
    (model_loaded_adds_one_child examplePI exampleWindow [Event.envLoaded ⟨1⟩]
      examplePending ⟨⟨7⟩⟩ rfl rfl).imp (fun _ h => ⟨h.1, h.2.1, h.2.2.1⟩)⟩

theorem model_failure_only_logs_witness :
    (run examplePI (setup exampleWindow) [Event.envLoaded ⟨1⟩] = some examplePending ∧
      examplePending.modelLoad = Load.pending) ∧
    ∃ s', step examplePI examplePending (Event.modelFailed ⟨3⟩) = some s' ∧
      s'.model = none ∧ s'.scene = examplePending.scene :=
  ⟨⟨rfl, rfl⟩,
    (model_failure_only_logs examplePI exampleWindow [Event.envLoaded ⟨1⟩]
      examplePending ⟨3⟩ rfl rfl).imp (fun _ h => ⟨h.1, h.2.2.2.1, h.2.2.2.2.1⟩)⟩

theorem rgb_shift_uniforms_static_witness :
    run examplePI (setup exampleWindow)
        [Event.envLoaded ⟨1⟩, Event.modelLoaded ⟨⟨7⟩⟩] = some exampleLoaded ∧
    (exampleLoaded.rgbShiftPass.uniforms.amount = 0.0035 ∧
      exampleLoaded.rgbShiftPass.uniforms.angle = 0.0) :=
  ⟨rfl, (rgb_shift_uniforms_static examplePI exampleWindow
      [Event.envLoaded ⟨1⟩, Event.modelLoaded ⟨⟨7⟩⟩] exampleLoaded rfl).2.2.2.2⟩

theorem resize_updates_camera_and_renderer_witness :
    0 < exampleWindow.innerHeight ∧
    (onWindowResize exampleWindow exampleLoaded).camera.aspect =
      exampleWindow.innerWidth / exampleWindow.innerHeight ∧
    (onWindowResize exampleWindow exampleLoaded).renderer.pixelRatio ≤ 2 :=
  have h : 0 < exampleWindow.innerHeight := by norm_num [exampleWindow]
  ⟨h, (resize_updates_camera_and_renderer examplePI exampleWindow exampleLoaded h).2.1,
    (resize_updates_camera_and_renderer examplePI exampleWindow
      exampleLoaded h).2.2.2.2.2.2.1⟩

theorem rotation_targets_bounded_witness :
    (0 ≤ examplePI ∧ 0 < exampleWindow.innerWidth ∧ 0 < exampleWindow.innerHeight ∧
      0 ≤ exampleMouse.clientX ∧ exampleMouse.clientX ≤ exampleWindow.innerWidth ∧
      0 ≤ exampleMouse.clientY ∧ exampleMouse.clientY ≤ exampleWindow.innerHeight) ∧
    (-(0.15 * examplePI) ≤ rotationX examplePI exampleMouse exampleWindow ∧
      rotationX examplePI exampleMouse exampleWindow ≤ 0.15 * examplePI) :=
  have h1 : 0 ≤ examplePI := by norm_num [examplePI]
  have h2 : 0 < exampleWindow.innerWidth := by norm_num [exampleWindow]
  have h3 : 0 < exampleWindow.innerHeight := by norm_num [exampleWindow]
  have h4 : 0 ≤ exampleMouse.clientX := by norm_num [exampleMouse]
  have h5 : exampleMouse.clientX ≤ exampleWindow.innerWidth := by
    norm_num [exampleMouse, exampleWindow]
  have h6 : 0 ≤ exampleMouse.clientY := by norm_num [exampleMouse]
  have h7 : exampleMouse.clientY ≤ exampleWindow.innerHeight := by
    norm_num [exampleMouse, exampleWindow]
  ⟨⟨h1, h2, h3, h4, h5, h6, h7⟩,
    (rotation_targets_bounded examplePI exampleMouse exampleWindow
      h1 h2 h3 h4 h5 h6 h7).1⟩

theorem fragment_shader_horizontal_shift_witness :
    (exampleCos 0 = 1 ∧ exampleSin 0 = 0) ∧
    fragmentShader exampleCos exampleSin exampleTexture (1 / 100) 0 ⟨1 / 2, 1 / 4⟩ =
      ⟨(exampleTexture ⟨1 / 2 + 1 / 100, 1 / 4⟩).r, (exampleTexture ⟨1 / 2, 1 / 4⟩).g,
        (exampleTexture ⟨1 / 2 - 1 / 100, 1 / 4⟩).b, (exampleTexture ⟨1 / 2, 1 / 4⟩).a⟩ :=
  have hc : exampleCos 0 = 1 := by norm_num [exampleCos]
  have hs : exampleSin 0 = 0 := rfl
  ⟨⟨hc, hs⟩, (fragment_shader_horizontal_shift exampleCos exampleSin exampleTexture
      (1 / 2) (1 / 4) (1 / 100) hc hs).1⟩

end CyberpunkThree
